import Mathlib

/-!
Verification of the CoreAudio output shim (`src/deps/coreaudio/coreaudio.c`).

The C file is a thin binding over the platform audio-unit API.  We embed it
shallowly: every platform primitive is an oracle field (`Platform`) telling
how the platform would answer that call, the mutable process-wide globals
(`errorString`, `currentAudioCallback`) become an explicit `GlobalState`, and
each C function is a pure Lean function that additionally emits the list of
platform calls it performed (`PCall`), in order.
-/

namespace CoreAudio

/-- `OSStatus`: the platform status code, `0` meaning success. -/
abbrev OSStatus := Int

/-- `sizeof(sample_t)` where `typedef float sample_t`. -/
def sampleSize : Nat := 4

/-- `kAudioFormatLinearPCM` = the four-char code `lpcm`. -/
def kAudioFormatLinearPCM : Nat := 0x6C70636D

/-- `kAudioFormatFlagIsFloat` = bit 0. -/
def kAudioFormatFlagIsFloat : Nat := 1

/-- `kAudioFormatFlagIsNonInterleaved` = bit 5; absent from the flags the
shim uses, which is what makes the negotiated layout interleaved. -/
def kAudioFormatFlagIsNonInterleaved : Nat := 32

/-- `static const int FORMAT_FLAGS = kAudioFormatFlagIsFloat;` -/
def FORMAT_FLAGS : Nat := kAudioFormatFlagIsFloat

/-- `AudioStreamBasicDescription`, the fields the shim fills in.
`mSampleRate` is a `Float64` in C but receives an unsigned integer
(`nframes_t sampleRate`), which the conversion preserves exactly, so we keep
it as `Nat`. -/
structure AudioStreamBasicDescription where
  mSampleRate : Nat
  mFormatID : Nat
  mFormatFlags : Nat
  mBytesPerPacket : Nat
  mFramesPerPacket : Nat
  mBytesPerFrame : Nat
  mChannelsPerFrame : Nat
  mBitsPerChannel : Nat
deriving Repr, DecidableEq

/-- The `streamFormat` value `coreAudioInit` builds from its arguments
(lines 69-77 of the C file), field by field. -/
def streamFormatOf (sampleRate nChannels : Nat) : AudioStreamBasicDescription :=
  { mSampleRate := sampleRate
    mFormatID := kAudioFormatLinearPCM
    mFormatFlags := FORMAT_FLAGS
    mBytesPerPacket := nChannels * sampleSize
    mFramesPerPacket := 1
    mBytesPerFrame := nChannels * sampleSize
    mChannelsPerFrame := nChannels
    mBitsPerChannel := 8 * sampleSize }

/-- One platform call made by the shim, as recorded in an execution trace.
`setStreamFormat` carries the format description handed to the platform. -/
inductive PCall where
  | findNext
  | instanceNew
  | unitInit
  | setRenderCallback
  | setStreamFormat (fmt : AudioStreamBasicDescription)
  | start
  | stop
  | dispose
deriving Repr, DecidableEq

/-- Oracle for the platform's answers: whether `AudioComponentFindNext`
returns a component, and the `OSStatus` each subsequent primitive would
return if called. -/
structure Platform where
  findNextOk : Bool
  instanceNewStatus : OSStatus
  unitInitStatus : OSStatus
  setRenderCallbackStatus : OSStatus
  setStreamFormatStatus : OSStatus
  startStatus : OSStatus
deriving Repr, DecidableEq

/-- The process-wide mutable globals of the C file: `static char* errorString`
(NULL = `none`) and `static AudioCallback currentAudioCallback` (a function
pointer, modelled by an opaque numeric identity, NULL = `none`). -/
structure GlobalState where
  errorString : Option String
  currentAudioCallback : Option Nat
deriving Repr, DecidableEq

/-- `char* coreAudioErrorString()` — returns the stored pointer and leaves
the state untouched. -/
def coreAudioErrorString (st : GlobalState) : Option String × GlobalState :=
  (st.errorString, st)

/-- The interleaved `AudioBufferList`'s single buffer as the render
trampoline sees it: channel count, byte size, and sample data (the sample
type is abstract: the shim never computes with samples). -/
structure AudioBuffer (α : Type) where
  mNumberChannels : Nat
  mDataByteSize : Nat
  mData : List α
deriving Repr, DecidableEq

/-- A platform buffer is well formed for a callback invocation when its byte
size and data length agree with the platform's requested frame count and the
stream's channel count, interleaved 32-bit samples. -/
def wellFormedBuffer {α : Type} (inNumberFrames nChannels : Nat)
    (b : AudioBuffer α) : Prop :=
  b.mNumberChannels = nChannels ∧
  b.mDataByteSize = inNumberFrames * nChannels * sampleSize ∧
  b.mData.length = inNumberFrames * nChannels

instance {α : Type} [DecidableEq α] (n c : Nat) (b : AudioBuffer α) :
    Decidable (wellFormedBuffer n c b) := by
  unfold wellFormedBuffer; infer_instance

/-- `coreAudioCallback`, the render trampoline (lines 18-28): it invokes the
user callback `cb` with `(mDataByteSize / sizeof(sample_t), mNumberChannels,
mData)` — ignoring the platform's `inNumberFrames` argument — and returns
status `0` to the platform.  `cb`'s result type is abstract so that the
theorem can speak about the trampoline regardless of what the callback does. -/
def coreAudioCallback {α β : Type} (cb : Nat → Nat → List α → β)
    (inNumberFrames : Nat) (ioData : AudioBuffer α) : β × OSStatus :=
  (cb (ioData.mDataByteSize / sampleSize) ioData.mNumberChannels ioData.mData, 0)

/-- Outcome of `coreAudioInit`: the C return value, the globals after the
call, the ordered platform-call trace, and whether the audio-unit instance
was successfully created (i.e. `outputInstance` holds a live handle). -/
structure InitResult where
  ok : Bool
  state : GlobalState
  trace : List PCall
  instanceAcquired : Bool
deriving Repr, DecidableEq

/-- `bool coreAudioInit(nframes_t sampleRate, channels_t nChannels,
AudioCallback audioCallback)` (lines 34-95), translated branch by branch.
The C short-circuit `!outputComponent || AudioComponentInstanceNew(...)`
becomes two nested tests returning at the same point with the same message.
Note the C performs no validation of its arguments, registers the render
callback BEFORE setting the stream format, and never disposes the instance
on a failure path. -/
def coreAudioInit (p : Platform) (sampleRate nChannels audioCallback : Nat)
    (st : GlobalState) : InitResult :=
  if p.findNextOk = false then
    { ok := false
      state := { st with errorString := some "Failed to open default audio device" }
      trace := [PCall.findNext]
      instanceAcquired := false }
  else if p.instanceNewStatus ≠ 0 then
    { ok := false
      state := { st with errorString := some "Failed to open default audio device" }
      trace := [PCall.findNext, PCall.instanceNew]
      instanceAcquired := false }
  else if p.unitInitStatus ≠ 0 then
    { ok := false
      state := { st with errorString := some "Unable to initialize audio unit instance" }
      trace := [PCall.findNext, PCall.instanceNew, PCall.unitInit]
      instanceAcquired := true }
  else
    -- currentAudioCallback = audioCallback;  (line 54, before the property call)
    let st1 : GlobalState := { st with currentAudioCallback := some audioCallback }
    if p.setRenderCallbackStatus ≠ 0 then
      { ok := false
        state := { st1 with errorString := some "Unable to attach an IOProc to the selected audio unit" }
        trace := [PCall.findNext, PCall.instanceNew, PCall.unitInit,
                  PCall.setRenderCallback]
        instanceAcquired := true }
    else if p.setStreamFormatStatus ≠ 0 then
      { ok := false
        state := { st1 with errorString := some "Failed to set audio unit input property" }
        trace := [PCall.findNext, PCall.instanceNew, PCall.unitInit,
                  PCall.setRenderCallback,
                  PCall.setStreamFormat (streamFormatOf sampleRate nChannels)]
        instanceAcquired := true }
    else if p.startStatus ≠ 0 then
      { ok := false
        state := { st1 with errorString := some "Unable to start audio unit" }
        trace := [PCall.findNext, PCall.instanceNew, PCall.unitInit,
                  PCall.setRenderCallback,
                  PCall.setStreamFormat (streamFormatOf sampleRate nChannels),
                  PCall.start]
        instanceAcquired := true }
    else
      { ok := true
        state := st1
        trace := [PCall.findNext, PCall.instanceNew, PCall.unitInit,
                  PCall.setRenderCallback,
                  PCall.setStreamFormat (streamFormatOf sampleRate nChannels),
                  PCall.start]
        instanceAcquired := true }

/-- `void coreAudioCleanup()` (lines 97-100): stop the unit, then dispose
the instance; the globals are not touched. -/
def coreAudioCleanup (st : GlobalState) : GlobalState × List PCall :=
  (st, [PCall.stop, PCall.dispose])

/-! ### Spec-side description of `open`

The spec describes `open` as a fixed sequence of platform steps run in
order, aborting at the first failing step with that step's error message and
performing no later step.  `runSteps` is that description, reusable with any
step order; `openCallOrder` is the order the code actually uses. -/

/-- Whether the platform oracle makes a given call fail. -/
def stepFails (p : Platform) : PCall → Prop
  | PCall.findNext => p.findNextOk = false
  | PCall.instanceNew => p.instanceNewStatus ≠ 0
  | PCall.unitInit => p.unitInitStatus ≠ 0
  | PCall.setRenderCallback => p.setRenderCallbackStatus ≠ 0
  | PCall.setStreamFormat _ => p.setStreamFormatStatus ≠ 0
  | PCall.start => p.startStatus ≠ 0
  | PCall.stop => False
  | PCall.dispose => False

instance stepFailsDec (p : Platform) : DecidablePred (stepFails p) := fun c =>
  match c with
  | PCall.findNext => inferInstanceAs (Decidable (p.findNextOk = false))
  | PCall.instanceNew => inferInstanceAs (Decidable (p.instanceNewStatus ≠ 0))
  | PCall.unitInit => inferInstanceAs (Decidable (p.unitInitStatus ≠ 0))
  | PCall.setRenderCallback => inferInstanceAs (Decidable (p.setRenderCallbackStatus ≠ 0))
  | PCall.setStreamFormat _ => inferInstanceAs (Decidable (p.setStreamFormatStatus ≠ 0))
  | PCall.start => inferInstanceAs (Decidable (p.startStatus ≠ 0))
  | PCall.stop => inferInstanceAs (Decidable False)
  | PCall.dispose => inferInstanceAs (Decidable False)

/-- The error message each failing step records (the device-lookup and
instance-creation steps share one message in the code). -/
def stepMessage : PCall → String
  | PCall.findNext => "Failed to open default audio device"
  | PCall.instanceNew => "Failed to open default audio device"
  | PCall.unitInit => "Unable to initialize audio unit instance"
  | PCall.setRenderCallback => "Unable to attach an IOProc to the selected audio unit"
  | PCall.setStreamFormat _ => "Failed to set audio unit input property"
  | PCall.start => "Unable to start audio unit"
  | PCall.stop => ""
  | PCall.dispose => ""

/-- Result of running a step sequence: overall success, the calls that were
performed (in order), and the error message of the failing step, if any. -/
structure SpecOutcome where
  ok : Bool
  calls : List PCall
  err : Option String
deriving Repr, DecidableEq

/-- Run steps in order; the first failing step aborts with its message and
no later step is performed. -/
def runSteps (p : Platform) : List PCall → SpecOutcome
  | [] => ⟨true, [], none⟩
  | c :: rest =>
    if stepFails p c then ⟨false, [c], some (stepMessage c)⟩
    else
      ⟨(runSteps p rest).ok, c :: (runSteps p rest).calls, (runSteps p rest).err⟩

/-- The platform-call order the code performs in `coreAudioInit`: locate,
instantiate, initialize the unit, register the render callback, set the
stream format, start. -/
def openCallOrder (sampleRate nChannels : Nat) : List PCall :=
  [PCall.findNext, PCall.instanceNew, PCall.unitInit, PCall.setRenderCallback,
   PCall.setStreamFormat (streamFormatOf sampleRate nChannels), PCall.start]

/-- Spec-side outcome of `open`: run the steps of `openCallOrder`. -/
def openSpec (p : Platform) (sampleRate nChannels : Nat) : SpecOutcome :=
  runSteps p (openCallOrder sampleRate nChannels)

/-- The order claim C2 states, as a predicate on traces: every stream-format
call occurs strictly before every render-callback registration. -/
def formatBeforeCallbackOrder (tr : List PCall) : Prop :=
  ∀ i j f, tr.get? i = some (PCall.setStreamFormat f) →
    tr.get? j = some PCall.setRenderCallback → i < j

/-- All six platform calls of `open` succeed. -/
def platformAllOk (p : Platform) : Prop :=
  p.findNextOk = true ∧ p.instanceNewStatus = 0 ∧ p.unitInitStatus = 0 ∧
  p.setRenderCallbackStatus = 0 ∧ p.setStreamFormatStatus = 0 ∧
  p.startStatus = 0

/-! ### Concrete platform oracles and states used as test inputs -/

/-- Platform where every call succeeds. -/
def allOk : Platform := ⟨true, 0, 0, 0, 0, 0⟩

/-- Platform with no default output device. -/
def pNoDevice : Platform := ⟨false, 0, 0, 0, 0, 0⟩

/-- Platform where `AudioUnitInitialize` fails. -/
def pUnitInitFail : Platform := ⟨true, 0, 1, 0, 0, 0⟩

/-- Platform that rejects the stream format. -/
def pFormatFail : Platform := ⟨true, 0, 0, 0, 1, 0⟩

/-- Fresh globals: no error recorded, no callback registered. -/
def st0 : GlobalState := ⟨none, none⟩

/-- Globals carrying a stale error message from some earlier failure. -/
def stStale : GlobalState := ⟨some "Failed to open default audio device", none⟩

/-! ### Theorems -/

/-- Claim C2 (amended): `coreAudioInit` performs exactly the platform calls
of `openCallOrder` — locate, instantiate, initialize, register the render
callback, set the stream format, start — aborting at the first failing step
with that step's error message recorded and no later step performed; on
success the error slot is untouched. -/
theorem init_refines_openSpec (p : Platform) (sr ch cb : Nat) (st : GlobalState) :
    (coreAudioInit p sr ch cb st).ok = (openSpec p sr ch).ok ∧
    (coreAudioInit p sr ch cb st).trace = (openSpec p sr ch).calls ∧
    (coreAudioInit p sr ch cb st).state.errorString =
      (if (openSpec p sr ch).ok = true then st.errorString else (openSpec p sr ch).err) := by
  by_cases h1 : p.findNextOk = false <;>
  by_cases h2 : p.instanceNewStatus = 0 <;>
  by_cases h3 : p.unitInitStatus = 0 <;>
  by_cases h4 : p.setRenderCallbackStatus = 0 <;>
  by_cases h5 : p.setStreamFormatStatus = 0 <;>
  by_cases h6 : p.startStatus = 0 <;>
  simp [coreAudioInit, openSpec, runSteps, openCallOrder, stepFails, stepMessage,
    h1, h2, h3, h4, h5, h6]

/-- Claim C2 (counterexample to the stated order): with an all-success
platform, the trace of `coreAudioInit` has the render-callback registration
at index 3 and the stream-format call at index 4, so the stream format is
NOT set before the callback is registered. -/
theorem init_callback_registered_before_format :
    ¬ formatBeforeCallbackOrder (coreAudioInit allOk 44100 2 7 st0).trace := by
  intro h
  have hlt := h 4 3 (streamFormatOf 44100 2) rfl rfl
  omega

/-- Claim C1 (code bug evidence): at the platform-requested frame count 1
on a 2-channel interleaved buffer (well formed: 8 bytes, 2 samples), the
trampoline hands the user callback 2 — the total sample count, not the
requested frame count 1 — and the buffer holds 2 samples, not
first-argument × channelCount = 4. -/
theorem callback_frameCount_is_sampleCount :
    wellFormedBuffer 1 2 (AudioBuffer.mk 2 8 ([30, 40] : List Int)) ∧
    (coreAudioCallback (fun n c d => (n, c, d)) 1
        (AudioBuffer.mk 2 8 ([30, 40] : List Int))).1 = (2, 2, [30, 40]) ∧
    (2 : Nat) ≠ 1 ∧ ([30, 40] : List Int).length ≠ 2 * 2 := by
  refine ⟨⟨rfl, rfl, rfl⟩, rfl, by decide, by decide⟩

/-- Claim C3 (code bug evidence): when the platform creates the instance but
`AudioUnitInitialize` fails, `coreAudioInit` returns `false` with the
instance acquired and no dispose call anywhere in its trace — the handle
leaks. -/
theorem init_leaks_instance_on_unitInit_failure :
    (coreAudioInit pUnitInitFail 44100 2 7 st0).ok = false ∧
    (coreAudioInit pUnitInitFail 44100 2 7 st0).instanceAcquired = true ∧
    PCall.dispose ∉ (coreAudioInit pUnitInitFail 44100 2 7 st0).trace := by
  refine ⟨rfl, rfl, by decide⟩

/-- Claim C4 (counterexample): with sampleRate = 0 and channelCount = 0 and
an accept-everything platform, `coreAudioInit` does not fail — it returns
`true` — and it performs both the component lookup and the instance
creation, so resources are acquired. -/
theorem init_acquires_resources_on_zero_inputs :
    (coreAudioInit allOk 0 0 7 st0).ok = true ∧
    PCall.findNext ∈ (coreAudioInit allOk 0 0 7 st0).trace ∧
    PCall.instanceNew ∈ (coreAudioInit allOk 0 0 7 st0).trace := by
  refine ⟨rfl, by decide, by decide⟩

/-- Claim C4 (amended): `coreAudioInit` performs no input validation: for
sampleRate = 0 or channelCount = 0 it proceeds exactly as for any input —
the component lookup always happens, instance creation happens whenever a
component is found, and success is decided solely by the platform's
answers. -/
theorem init_no_input_validation (p : Platform) (sr ch cb : Nat)
    (st : GlobalState) (h : sr = 0 ∨ ch = 0) :
    PCall.findNext ∈ (coreAudioInit p sr ch cb st).trace ∧
    (p.findNextOk = true → PCall.instanceNew ∈ (coreAudioInit p sr ch cb st).trace) ∧
    ((coreAudioInit p sr ch cb st).ok = true ↔ platformAllOk p) := by
  clear h
  by_cases h1 : p.findNextOk = false <;>
  by_cases h2 : p.instanceNewStatus = 0 <;>
  by_cases h3 : p.unitInitStatus = 0 <;>
  by_cases h4 : p.setRenderCallbackStatus = 0 <;>
  by_cases h5 : p.setStreamFormatStatus = 0 <;>
  by_cases h6 : p.startStatus = 0 <;>
  simp_all [coreAudioInit, platformAllOk]

/-- Witness for `init_no_input_validation` at sampleRate = 0 on the
no-device platform. -/
theorem init_no_input_validation_witness :
    PCall.findNext ∈ (coreAudioInit pNoDevice 0 2 7 st0).trace :=
  (init_no_input_validation pNoDevice 0 2 7 st0 (Or.inl rfl)).1

/-- The flag word the shim uses never carries the non-interleaved bit. -/
theorem format_flags_interleaved :
    FORMAT_FLAGS &&& kAudioFormatFlagIsNonInterleaved = 0 := by decide

/-- Claim C5: every stream-format description handed to the platform by
`coreAudioInit` is `streamFormatOf sr ch`: 32-bit float interleaved linear
PCM at the requested rate and channel count, with bytesPerFrame =
bytesPerPacket = channelCount × 4 and framesPerPacket = 1. -/
theorem init_streamFormat_fields (p : Platform) (sr ch cb : Nat)
    (st : GlobalState) (f : AudioStreamBasicDescription)
    (h : PCall.setStreamFormat f ∈ (coreAudioInit p sr ch cb st).trace) :
    f = streamFormatOf sr ch ∧ f.mSampleRate = sr ∧ f.mChannelsPerFrame = ch ∧
    f.mBitsPerChannel = 32 ∧ f.mBytesPerFrame = ch * 4 ∧
    f.mBytesPerPacket = ch * 4 ∧ f.mFramesPerPacket = 1 ∧
    f.mFormatID = kAudioFormatLinearPCM ∧ f.mFormatFlags = FORMAT_FLAGS ∧
    f.mFormatFlags &&& kAudioFormatFlagIsNonInterleaved = 0 := by
  have hf : f = streamFormatOf sr ch := by
    by_cases h1 : p.findNextOk = false <;>
    by_cases h2 : p.instanceNewStatus = 0 <;>
    by_cases h3 : p.unitInitStatus = 0 <;>
    by_cases h4 : p.setRenderCallbackStatus = 0 <;>
    by_cases h5 : p.setStreamFormatStatus = 0 <;>
    by_cases h6 : p.startStatus = 0 <;>
    simp_all [coreAudioInit]
  subst hf
  exact ⟨rfl, rfl, rfl, rfl, rfl, rfl, rfl, rfl, rfl, format_flags_interleaved⟩

/-- Witness for `init_streamFormat_fields` on the all-success platform at
(44100, 2). -/
theorem init_streamFormat_fields_witness :
    streamFormatOf 44100 2 = streamFormatOf 44100 2 ∧
    (streamFormatOf 44100 2).mBitsPerChannel = 32 :=
  ⟨(init_streamFormat_fields allOk 44100 2 7 st0 (streamFormatOf 44100 2)
      (by decide)).1,
   (init_streamFormat_fields allOk 44100 2 7 st0 (streamFormatOf 44100 2)
      (by decide)).2.2.2.1⟩

/-- Claim C6: whenever the platform would reject the stream format,
`coreAudioInit` returns failure and the transport-start primitive never
appears in its trace. -/
theorem formatRejected_aborts_before_start (p : Platform) (sr ch cb : Nat)
    (st : GlobalState) (h : p.setStreamFormatStatus ≠ 0) :
    (coreAudioInit p sr ch cb st).ok = false ∧
    PCall.start ∉ (coreAudioInit p sr ch cb st).trace := by
  by_cases h1 : p.findNextOk = false <;>
  by_cases h2 : p.instanceNewStatus = 0 <;>
  by_cases h3 : p.unitInitStatus = 0 <;>
  by_cases h4 : p.setRenderCallbackStatus = 0 <;>
  simp_all [coreAudioInit]

/-- Witness for `formatRejected_aborts_before_start` on the
format-rejecting platform. -/
theorem formatRejected_aborts_before_start_witness :
    (coreAudioInit pFormatFail 44100 2 7 st0).ok = false :=
  (formatRejected_aborts_before_start pFormatFail 44100 2 7 st0 (by decide)).1

/-- Claim C7: `coreAudioErrorString` returns exactly the stored error slot —
`none` when nothing has failed yet — and leaves the state unchanged; and
every failing `coreAudioInit` stores a non-empty message that the query
then returns. -/
theorem errorString_query_contract (st : GlobalState) (p : Platform)
    (sr ch cb : Nat) :
    (coreAudioErrorString st).1 = st.errorString ∧
    (coreAudioErrorString st).2 = st ∧
    (st.errorString = none → (coreAudioErrorString st).1 = none) ∧
    ((coreAudioInit p sr ch cb st).ok = false →
      (coreAudioErrorString (coreAudioInit p sr ch cb st).state).1 ≠ none ∧
      (coreAudioErrorString (coreAudioInit p sr ch cb st).state).1 ≠ some "") := by
  refine ⟨rfl, rfl, fun h => by simp [coreAudioErrorString, h], ?_⟩
  by_cases h1 : p.findNextOk = false <;>
  by_cases h2 : p.instanceNewStatus = 0 <;>
  by_cases h3 : p.unitInitStatus = 0 <;>
  by_cases h4 : p.setRenderCallbackStatus = 0 <;>
  by_cases h5 : p.setStreamFormatStatus = 0 <;>
  by_cases h6 : p.startStatus = 0 <;>
  simp_all [coreAudioInit, coreAudioErrorString]

/-- Witness for `errorString_query_contract` after a failing open on the
no-device platform. -/
theorem errorString_query_contract_witness :
    (coreAudioErrorString (coreAudioInit pNoDevice 44100 2 7 st0).state).1 ≠ none :=
  ((errorString_query_contract st0 pNoDevice 44100 2 7).2.2.2 rfl).1

/-- Claim C8: `coreAudioCleanup` performs exactly a stop call followed by a
dispose call, so the stop primitive is invoked on the instance before the
instance is disposed. -/
theorem cleanup_stops_before_dispose (st : GlobalState) :
    (coreAudioCleanup st).2 = [PCall.stop, PCall.dispose] ∧
    ∀ i j, (coreAudioCleanup st).2.get? i = some PCall.stop →
      (coreAudioCleanup st).2.get? j = some PCall.dispose → i < j := by
  refine ⟨rfl, fun i j hi hj => ?_⟩
  match i, j with
  | 0, 0 => exact absurd hj (by simp [coreAudioCleanup])
  | 0, 1 => exact Nat.zero_lt_one
  | 0, j + 2 => exact absurd hj (by simp [coreAudioCleanup])
  | 1, _ => exact absurd hi (by simp [coreAudioCleanup])
  | i + 2, _ => exact absurd hi (by simp [coreAudioCleanup])

/-- Claim C9: the render trampoline returns platform status 0 for every
buffer, frame count, and user callback, whatever the callback computes. -/
theorem render_trampoline_returns_success {α β : Type}
    (cb : Nat → Nat → List α → β) (inNumberFrames : Nat)
    (ioData : AudioBuffer α) :
    (coreAudioCallback cb inNumberFrames ioData).2 = 0 := rfl

/-- Claim C10: a successful `coreAudioInit` never writes the error slot, so
a stale message from an earlier failure is still what
`coreAudioErrorString` returns afterwards. -/
theorem successful_init_preserves_errorString (p : Platform) (sr ch cb : Nat)
    (st : GlobalState) (h : (coreAudioInit p sr ch cb st).ok = true) :
    (coreAudioInit p sr ch cb st).state.errorString = st.errorString ∧
    (coreAudioErrorString (coreAudioInit p sr ch cb st).state).1 = st.errorString := by
  by_cases h1 : p.findNextOk = false <;>
  by_cases h2 : p.instanceNewStatus = 0 <;>
  by_cases h3 : p.unitInitStatus = 0 <;>
  by_cases h4 : p.setRenderCallbackStatus = 0 <;>
  by_cases h5 : p.setStreamFormatStatus = 0 <;>
  by_cases h6 : p.startStatus = 0 <;>
  simp_all [coreAudioInit, coreAudioErrorString]

/-- Witness for `successful_init_preserves_errorString`: after a successful
open on a state carrying a stale message, the stale message is still
returned. -/
theorem successful_init_preserves_errorString_witness :
    (coreAudioErrorString (coreAudioInit allOk 44100 2 7 stStale).state).1 =
      some "Failed to open default audio device" :=
  (successful_init_preserves_errorString allOk 44100 2 7 stStale rfl).2

end CoreAudio
